import Mathlib

/-!
Verification development for the tea-stall-bench content pipeline.

The repository ships its pipeline core (Search Gateway, Outline Builder,
Writer, Pipeline Orchestrator) only as design documents; the shipped code
under src is the dashboard script frontend/app.js.  The core components
below are therefore modelled from the specification text, while the
dashboard helpers (escapeHtml, truncate, the form-submit guard) are
translated from frontend/app.js directly.
-/

namespace TeaStall

/-- Modelled from the spec (section 3): a research source descriptor with a
title and a url. -/
structure Source where
  title : String
  url : String
deriving DecidableEq, Repr

/-- Modelled from the spec (section 6): a search provider returns a text
and a list of sources on success. -/
structure SearchResult where
  text : String
  sources : List Source
deriving DecidableEq, Repr

/-- Modelled from the spec (sections 4.1 and 6): the outcome of one call to
one search provider.  The constructor for timeout or transport error is
collapsed into a single failure case, since the gateway treats both the
same way. -/
inductive ProviderOutcome where
  | ok (r : SearchResult)
  | unavailable
deriving DecidableEq, Repr

/-- Modelled from the spec (section 4.1): a successful fetch result, with
the flag recording whether the secondary provider supplied it. -/
structure FetchSuccess where
  text : String
  sources : List Source
  usedFallback : Bool
deriving DecidableEq, Repr

/-- Modelled from the spec (sections 4.1 and 7): the Search Gateway either
succeeds or surfaces the typed ResearchUnavailable failure. -/
inductive FetchResult where
  | success (s : FetchSuccess)
  | researchUnavailable
deriving DecidableEq, Repr

/-- Modelled from the spec (section 4.1): a provider call is usable exactly
when it neither failed nor returned an empty-result response; any non-empty
text is accepted as success. -/
def providerUsable : ProviderOutcome → Option SearchResult
  | .ok r => if r.text = "" then none else some r
  | .unavailable => none

/-- Modelled from the spec (section 4.1): the failover policy — try the
primary once; on timeout, transport error, or empty result try the
secondary once; otherwise surface ResearchUnavailable. -/
def fetch (pOut sOut : ProviderOutcome) : FetchResult :=
  match providerUsable pOut with
  | some r => .success ⟨r.text, r.sources, false⟩
  | none =>
    match providerUsable sOut with
    | some r => .success ⟨r.text, r.sources, true⟩
    | none => .researchUnavailable

/-- Tag naming one of the two search providers, used to record which
providers a fetch invocation calls. -/
inductive ProviderTag where
  | primaryTag
  | secondaryTag
deriving DecidableEq, BEq, Repr

/-- Modelled from the spec (section 4.1): the sequence of provider calls a
fetch makes — the primary always exactly once, the secondary only when the
primary call was unusable, and never a repeat of the same provider. -/
def fetchCalls (pOut : ProviderOutcome) : List ProviderTag :=
  match providerUsable pOut with
  | some _ => [.primaryTag]
  | none => [.primaryTag, .secondaryTag]

/-- Modelled from the spec (section 3): one outline section. -/
structure Section where
  heading : String
  key_points : List String
deriving DecidableEq, Repr

/-- Modelled from the spec (section 3): a structured outline. -/
structure Outline where
  title : String
  sections : List Section
deriving DecidableEq, Repr

/-- A section is well formed when its heading is non-empty and it has at
least one key point, all key points non-empty (spec section 4.2 step 3). -/
def validSection (s : Section) : Bool :=
  s.heading ≠ "" && s.key_points ≠ [] && s.key_points.all (fun p => p ≠ "")

/-- Executable case lowering on the character list of a string, used for
the case-insensitive comparisons of the spec. -/
def lowerChars (l : List Char) : List Char := l.map Char.toLower

/-- Case lowering of a whole string. -/
def lowerStr (s : String) : String := String.mk (lowerChars s.data)

/-- Boolean duplicate-freedom check for a list of strings. -/
def nodupBool : List String → Bool
  | [] => true
  | x :: xs => !(xs.contains x) && nodupBool xs

/-- Modelled from the spec (section 4.2 step 3): outline validation —
title non-empty, sections non-empty, every section well formed, headings
unique case-insensitively.  Returns the specific validation error, or none
when the outline is fully valid. -/
def validateOutline (o : Outline) : Option String :=
  if o.title = "" then some "outline title is empty"
  else if o.sections = [] then some "outline has no sections"
  else if !(o.sections.all validSection) then
    some "a section has an empty heading or lacks a non-empty key point"
  else if !(nodupBool (o.sections.map (fun s => lowerStr s.heading))) then
    some "duplicate section headings"
  else none

/-- Modelled from the spec (sections 4.2 and 8): the deterministic fallback
Outline — a single section titled with the topic, key points populated with
a placeholder. -/
def fallbackOutline (topic : String) : Outline :=
  { title := topic
    sections := [{ heading := topic, key_points := ["(outline unavailable)"] }] }

/-- Modelled from the spec (sections 4.2 and 6): one response of the
generation service, already put through structured-output parsing: either
the raw text that failed to parse as an Outline shape, or the parsed
Outline (which may still fail validation). -/
inductive GenResponse where
  | malformed (raw : String)
  | parsed (o : Outline)
deriving DecidableEq, Repr

/-- The fixed message attached as corrective feedback when a response does
not parse as structured output (spec section 4.2 step 4). -/
def parseErrMsg : String := "response is not valid structured output"

/-- Modelled from the spec (sections 4.2 step 1 and 4.2 step 4): a
generation request carrying the topic, the possibly-absent research, and —
on retries — corrective feedback holding the previous malformed output and
the specific validation error. -/
structure Prompt where
  topic : String
  research : Option String
  feedback : Option (GenResponse × String)
deriving DecidableEq, Repr

/-- A generation response is invalid when it is malformed or when its
parsed outline fails validation (spec section 4.2 steps 3 and 4). -/
def responseInvalid : GenResponse → Bool
  | .malformed _ => true
  | .parsed o => (validateOutline o).isSome

/-- Modelled from the spec (section 4.2): the result of the Outline Builder
— the outline (real or fallback), the typed failure signal, and the list of
prompts that were issued, in order. -/
structure BuildResult where
  outline : Outline
  failed : Bool
  promptsIssued : List Prompt
deriving Repr

/-- Modelled from the spec (section 4.2 steps 2 to 5): the bounded
retry-with-feedback loop.  The fuel counts the remaining attempts; the
accumulator carries the feedback for the next prompt and the prompts issued
so far in reverse order. -/
def buildLoop (gen : Prompt → GenResponse) (topic : String)
    (research : Option String) :
    Nat → Option (GenResponse × String) → List Prompt → BuildResult
  | 0, _, issued => ⟨fallbackOutline topic, true, issued.reverse⟩
  | n + 1, fb, issued =>
    let p : Prompt := ⟨topic, research, fb⟩
    match gen p with
    | .malformed raw =>
      buildLoop gen topic research n (some (.malformed raw, parseErrMsg)) (p :: issued)
    | .parsed o =>
      match validateOutline o with
      | none => ⟨o, false, (p :: issued).reverse⟩
      | some err => buildLoop gen topic research n (some (.parsed o, err)) (p :: issued)

/-- Modelled from the spec (section 4.2 step 4): the recommended retry
bound of three attempts total. -/
def retryBound : Nat := 3

/-- Modelled from the spec (section 4.2): the Outline Builder contract
build, taking the topic and the possibly-absent research text. -/
def build (gen : Prompt → GenResponse) (topic : String)
    (research : Option String) : BuildResult :=
  buildLoop gen topic research retryBound none []

/-- Modelled from the spec (sections 4.3 and 6): the outcome of the
generation call the Writer makes — either a title and body text, or a
timeout or connection failure. -/
inductive WriterGen where
  | ok (title text : String)
  | unavailable
deriving DecidableEq, Repr

/-- Boolean test of whether the pattern occurs at the head of the list. -/
def leadMatch : List Char → List Char → Bool
  | [], _ => true
  | _ :: _, [] => false
  | a :: pa, b :: hb => a == b && leadMatch pa hb

/-- Boolean test of whether the pattern occurs contiguously anywhere in the
list. -/
def segMatch (pat : List Char) : List Char → Bool
  | [] => leadMatch pat []
  | l@(_ :: rest) => leadMatch pat l || segMatch pat rest

/-- Modelled from the spec (sections 4.3 and 9): the documented compliance
heuristic — a heading is addressed when the generated text contains it as a
case-insensitive substring. -/
def headingAddressed (text heading : String) : Bool :=
  segMatch (lowerChars heading.data) (lowerChars text.data)

/-- Modelled from the spec (section 4.3): the outline headings that the
generated text does not address. -/
def missingHeadings (o : Outline) (text : String) : List String :=
  (o.sections.map (fun s => s.heading)).filter
    (fun h => !(headingAddressed text h))

/-- Modelled from the spec (section 4.3): whitespace-delimited token count
of the final text. -/
def countWords (text : String) : Nat :=
  ((text.split (fun c => c.isWhitespace)).filter (fun w => w ≠ "")).length

/-- Modelled from the spec (section 4.3): the Writer result record. -/
structure WriteResult where
  title : String
  text : String
  wordCount : Nat
  compliant : Bool
deriving DecidableEq, Repr

/-- Modelled from the spec (section 4.3): the Writer — on an empty or error
generation response it returns the typed failure none and fabricates no
content; otherwise it returns the text together with the post-hoc
compliance flag. -/
def write (gout : WriterGen) (o : Outline) : Option WriteResult :=
  match gout with
  | .unavailable => none
  | .ok title text =>
    if text = "" then none
    else some { title := title, text := text, wordCount := countWords text
                compliant := (missingHeadings o text).isEmpty }

/-- Executable model of string trimming: drop whitespace characters from
both ends.  This mirrors the trim operation the spec (section 6) and the
dashboard submit handler apply to the topic. -/
def trimmed (s : String) : String :=
  String.mk
    (((s.data.dropWhile (fun c => c.isWhitespace)).reverse.dropWhile
        (fun c => c.isWhitespace)).reverse)

/-- Modelled from the spec (section 4.4): per-stage status values. -/
inductive StageStatus where
  | pending
  | active
  | done
  | degraded
  | failed
deriving DecidableEq, Repr

/-- A status is terminal when the stage has finished, in any of the three
terminal ways of spec section 4.4. -/
def terminalStatus : StageStatus → Bool
  | .done => true
  | .degraded => true
  | .failed => true
  | _ => false

/-- Modelled from the spec (section 6): the request the Orchestrator
consumes from its caller. -/
structure Request where
  topic : String
  content_type : String
  style : String
  length : String
  channel : String
deriving DecidableEq, Repr

/-- Modelled from the spec (section 3): the RunState record threaded
through one pipeline execution.  The stage-status mapping is represented by
one field per stage name. -/
structure RunState where
  trace_id : Nat
  topic : String
  style : String
  length : String
  channel : String
  started_at : Nat
  completed_at : Option Nat
  research_text : Option String
  research_sources : List Source
  outline : Option Outline
  article_title : Option String
  article_text : Option String
  word_count : Option Nat
  errors : List String
  researchStatus : StageStatus
  outlineStatus : StageStatus
  writeStatus : StageStatus
deriving Repr

/-- Modelled from the spec (sections 5 and 6): the environment of one run —
the outcomes the outside collaborator services produce, the assigned trace id, and
the clock (start instant plus elapsed time, so the completion stamp is
startTime + elapsed). -/
structure Env where
  primaryOut : ProviderOutcome
  secondaryOut : ProviderOutcome
  gen : Prompt → GenResponse
  writerOut : WriterGen
  traceId : Nat
  startTime : Nat
  elapsed : Nat

/-- Modelled from the spec (section 3): the RunState created once per
request, with both optional outputs absent, no errors, and all stages
pending. -/
def initState (env : Env) (req : Request) : RunState :=
  { trace_id := env.traceId
    topic := req.topic
    style := req.style
    length := req.length
    channel := req.channel
    started_at := env.startTime
    completed_at := none
    research_text := none
    research_sources := []
    outline := none
    article_title := none
    article_text := none
    word_count := none
    errors := []
    researchStatus := .pending
    outlineStatus := .pending
    writeStatus := .pending }

/-- Modelled from the spec (section 4.4): the Research stage.  Primary
success is done; secondary success is degraded with the fallback logged as
a stage-tagged error; total failure is failed with an error appended,
research_text left absent, and the run continuing. -/
def researchStage (pOut sOut : ProviderOutcome) (st : RunState) : RunState :=
  match fetch pOut sOut with
  | .success s =>
    if s.usedFallback then
      { st with research_text := some s.text
                research_sources := s.sources
                researchStatus := .degraded
                errors := st.errors ++
                  ["Research failed: " ++ "primary provider unavailable; secondary fallback used"] }
    else
      { st with research_text := some s.text
                research_sources := s.sources
                researchStatus := .done }
  | .researchUnavailable =>
    { st with researchStatus := .failed
              errors := st.errors ++
                ["Research failed: " ++ "all search providers unavailable"] }

/-- Modelled from the spec (section 4.4): the Outline stage.  It always
stores some Outline; done when the builder accepted a real outline,
degraded with an error appended when the fallback had to be substituted. -/
def outlineStage (gen : Prompt → GenResponse) (st : RunState) : RunState :=
  let r := build gen st.topic st.research_text
  if r.failed then
    { st with outline := some r.outline
              outlineStatus := .degraded
              errors := st.errors ++
                ["Outline failed: " ++ "no valid outline produced within the retry bound; fallback substituted"] }
  else
    { st with outline := some r.outline, outlineStatus := .done }

/-- Modelled from the spec (section 4.4): the Write stage.  Generation
failure is failed with article_text left absent; success with missing
headings is degraded — the text is kept and an error naming the missing
headings is appended; full compliance is done. -/
def writeStage (gout : WriterGen) (st : RunState) : RunState :=
  match st.outline with
  | none =>
    { st with writeStatus := .failed
              errors := st.errors ++ ["Writing failed: " ++ "no outline available"] }
  | some o =>
    match write gout o with
    | none =>
      { st with writeStatus := .failed
                errors := st.errors ++
                  ["Writing failed: " ++ "generation produced no article text"] }
    | some w =>
      if w.compliant then
        { st with article_title := some w.title
                  article_text := some w.text
                  word_count := some w.wordCount
                  writeStatus := .done }
      else
        { st with article_title := some w.title
                  article_text := some w.text
                  word_count := some w.wordCount
                  writeStatus := .degraded
                  errors := st.errors ++
                    ["Writing failed: " ++
                      ("generated text does not address outline headings: " ++
                        String.intercalate ", " (missingHeadings o w.text))] }

/-- Modelled from the spec (sections 4.4 and 8): the successive RunState
values of one accepted run — created, after Research, after Outline, after
Write, and after the single completion stamp. -/
def runStates (env : Env) (req : Request) : List RunState :=
  let s0 := initState env req
  let s1 := researchStage env.primaryOut env.secondaryOut s0
  let s2 := outlineStage env.gen s1
  let s3 := writeStage env.writerOut s2
  let s4 := { s3 with completed_at := some (env.startTime + env.elapsed) }
  [s0, s1, s2, s3, s4]

/-- Modelled from the spec (sections 6 and 7): a run either is rejected by
fatal validation before any stage executes, or returns a RunState. -/
inductive RunOutcome where
  | rejected (message : String)
  | completed (st : RunState)

/-- Modelled from the spec (sections 4.4, 6 and 8): the Orchestrator run —
reject a topic that is empty after trimming before creating any RunState,
otherwise drive the three stages in sequence and stamp completed_at once at
the end. -/
def run (env : Env) (req : Request) : RunOutcome :=
  if trimmed req.topic = "" then
    .rejected "topic must be non-empty after trimming"
  else
    let s3 := writeStage env.writerOut
      (outlineStage env.gen
        (researchStage env.primaryOut env.secondaryOut (initState env req)))
    .completed { s3 with completed_at := some (env.startTime + env.elapsed) }

/-- An error entry is stage-tagged when it begins with one of the three
stage-name error tags of spec section 3. -/
def stageTagged (e : String) : Prop :=
  (∃ r, e = "Research failed: " ++ r) ∨
  (∃ r, e = "Outline failed: " ++ r) ∨
  (∃ r, e = "Writing failed: " ++ r)

namespace Frontend

/-- From frontend/app.js, escapeHtml: the function assigns the input to a
detached div through textContent and reads back innerHTML.  Per the HTML
fragment-serialization rules that the browser applies to a text node, this
replaces the ampersand, less-than and greater-than characters by their
named references and leaves every other character unchanged.  This helper
gives the per-character replacement as a character list. -/
def escapeHtmlChar (c : Char) : List Char :=
  if c = '&' then ['&', 'a', 'm', 'p', ';']
  else if c = '<' then ['&', 'l', 't', ';']
  else if c = '>' then ['&', 'g', 't', ';']
  else [c]

/-- Character-list form of escapeHtml from frontend/app.js. -/
def escapeChars : List Char → List Char
  | [] => []
  | c :: cs => escapeHtmlChar c ++ escapeChars cs

/-- From frontend/app.js lines 219 to 223: escapeHtml. -/
def escapeHtml (text : String) : String :=
  String.mk (escapeChars text.data)

/-- From frontend/app.js lines 213 to 217: truncate returns the empty
string on empty input, otherwise escapes the text first and then bounds the
escaped length, appending an ellipsis when it had to cut. -/
def truncate (text : String) (maxLen : Nat) : String :=
  if text = "" then ""
  else if maxLen < (escapeChars text.data).length then
    String.mk ((escapeChars text.data).take maxLen ++ ['.', '.', '.'])
  else String.mk (escapeChars text.data)

/-- From frontend/app.js lines 38 to 62: the form submit handler trims the
topic field and returns without dispatching any pipeline request when the
trimmed topic is empty; otherwise it posts the request with the trimmed
topic and the fixed content type blog. -/
def formSubmitRequest (topicField styleField lengthField channelField : String) :
    Option Request :=
  let topic := trimmed topicField
  if topic = "" then none
  else some { topic := topic, content_type := "blog", style := styleField
              length := lengthField, channel := channelField }

/-- A string holds no raw angle bracket when neither the less-than nor the
greater-than character occurs in it. -/
def noRawAngle (s : String) : Prop :=
  ¬ ('<' ∈ s.data) ∧ ¬ ('>' ∈ s.data)

end Frontend

/-! Helper lemmas about the Outline Builder loop. -/

lemma fallbackOutline_valid {topic : String} (h : topic ≠ "") :
    validateOutline (fallbackOutline topic) = none := by
  simp [validateOutline, fallbackOutline, validSection, nodupBool, h]

lemma buildLoop_failed_outline (gen : Prompt → GenResponse) (topic : String)
    (research : Option String) :
    ∀ n fb issued, (buildLoop gen topic research n fb issued).failed = true →
      (buildLoop gen topic research n fb issued).outline = fallbackOutline topic := by
  intro n
  induction n with
  | zero => intro fb issued _; rfl
  | succ n ih =>
    intro fb issued h
    rw [buildLoop] at h ⊢
    cases hg : gen ⟨topic, research, fb⟩ with
    | malformed raw =>
      simp only [hg] at h ⊢
      exact ih _ _ h
    | parsed o =>
      simp only [hg] at h ⊢
      cases hv : validateOutline o with
      | none => simp [hv] at h
      | some err =>
        simp only [hv] at h ⊢
        exact ih _ _ h

lemma buildLoop_outline_valid (gen : Prompt → GenResponse) (topic : String)
    (research : Option String) (h : topic ≠ "") :
    ∀ n fb issued,
      validateOutline (buildLoop gen topic research n fb issued).outline = none := by
  intro n
  induction n with
  | zero => intro fb issued; exact fallbackOutline_valid h
  | succ n ih =>
    intro fb issued
    rw [buildLoop]
    cases hg : gen ⟨topic, research, fb⟩ with
    | malformed raw => exact ih _ _
    | parsed o =>
      cases hv : validateOutline o with
      | none => simp only [hv]
      | some err => simp only [hv]; exact ih _ _

lemma buildLoop_all_invalid (gen : Prompt → GenResponse) (topic : String)
    (research : Option String) (hg : ∀ p, responseInvalid (gen p) = true) :
    ∀ n fb issued, (buildLoop gen topic research n fb issued).failed = true := by
  intro n
  induction n with
  | zero => intro fb issued; rfl
  | succ n ih =>
    intro fb issued
    rw [buildLoop]
    cases hgp : gen ⟨topic, research, fb⟩ with
    | malformed raw => exact ih _ _
    | parsed o =>
      have hinv := hg ⟨topic, research, fb⟩
      rw [hgp] at hinv
      cases hv : validateOutline o with
      | none => rw [responseInvalid, hv] at hinv; simp at hinv
      | some err => simp only [hv]; exact ih _ _

lemma build_outline_valid (gen : Prompt → GenResponse) (topic : String)
    (research : Option String) (h : topic ≠ "") :
    validateOutline (build gen topic research).outline = none :=
  buildLoop_outline_valid gen topic research h retryBound none []

/-! Helper lemmas about the three stage functions of the Orchestrator:
which RunState fields each stage leaves untouched, how each stage extends
the error list, and which statuses each stage can set. -/

lemma researchStage_untouched (pOut sOut : ProviderOutcome) (st : RunState) :
    (researchStage pOut sOut st).completed_at = st.completed_at ∧
    (researchStage pOut sOut st).started_at = st.started_at ∧
    (researchStage pOut sOut st).topic = st.topic ∧
    (researchStage pOut sOut st).outline = st.outline ∧
    (researchStage pOut sOut st).outlineStatus = st.outlineStatus ∧
    (researchStage pOut sOut st).writeStatus = st.writeStatus ∧
    (researchStage pOut sOut st).article_text = st.article_text := by
  cases h : fetch pOut sOut with
  | success s =>
    by_cases hf : s.usedFallback = true <;> simp [researchStage, h, hf]
  | researchUnavailable => simp [researchStage, h]

lemma researchStage_errors (pOut sOut : ProviderOutcome) (st : RunState) :
    ∃ new, (researchStage pOut sOut st).errors = st.errors ++ new ∧
      ∀ e ∈ new, ∃ r, e = "Research failed: " ++ r := by
  cases h : fetch pOut sOut with
  | success s =>
    by_cases hf : s.usedFallback = true
    · refine ⟨["Research failed: " ++ "primary provider unavailable; secondary fallback used"],
        by simp [researchStage, h, hf], ?_⟩
      intro e he
      rw [List.mem_singleton] at he
      exact ⟨_, he⟩
    · exact ⟨[], by simp [researchStage, h, hf], by intro e he; simp at he⟩
  | researchUnavailable =>
    refine ⟨["Research failed: " ++ "all search providers unavailable"],
      by simp [researchStage, h], ?_⟩
    intro e he
    rw [List.mem_singleton] at he
    exact ⟨_, he⟩

lemma researchStage_terminal (pOut sOut : ProviderOutcome) (st : RunState) :
    terminalStatus (researchStage pOut sOut st).researchStatus = true := by
  cases h : fetch pOut sOut with
  | success s =>
    by_cases hf : s.usedFallback = true <;>
      simp [researchStage, h, hf, terminalStatus]
  | researchUnavailable => simp [researchStage, h, terminalStatus]

lemma outlineStage_untouched (gen : Prompt → GenResponse) (st : RunState) :
    (outlineStage gen st).completed_at = st.completed_at ∧
    (outlineStage gen st).started_at = st.started_at ∧
    (outlineStage gen st).topic = st.topic ∧
    (outlineStage gen st).research_text = st.research_text ∧
    (outlineStage gen st).researchStatus = st.researchStatus ∧
    (outlineStage gen st).writeStatus = st.writeStatus ∧
    (outlineStage gen st).article_text = st.article_text := by
  by_cases h : (build gen st.topic st.research_text).failed = true <;>
    simp [outlineStage, h]

lemma outlineStage_outline (gen : Prompt → GenResponse) (st : RunState) :
    (outlineStage gen st).outline =
      some (build gen st.topic st.research_text).outline := by
  by_cases h : (build gen st.topic st.research_text).failed = true <;>
    simp [outlineStage, h]

lemma outlineStage_status (gen : Prompt → GenResponse) (st : RunState) :
    (outlineStage gen st).outlineStatus = .done ∨
    (outlineStage gen st).outlineStatus = .degraded := by
  by_cases h : (build gen st.topic st.research_text).failed = true <;>
    simp [outlineStage, h]

lemma outlineStage_errors (gen : Prompt → GenResponse) (st : RunState) :
    ∃ new, (outlineStage gen st).errors = st.errors ++ new ∧
      ∀ e ∈ new, ∃ r, e = "Outline failed: " ++ r := by
  by_cases h : (build gen st.topic st.research_text).failed = true
  · refine ⟨["Outline failed: " ++ "no valid outline produced within the retry bound; fallback substituted"],
      by simp [outlineStage, h], ?_⟩
    intro e he
    rw [List.mem_singleton] at he
    exact ⟨_, he⟩
  · exact ⟨[], by simp [outlineStage, h], by intro e he; simp at he⟩

lemma writeStage_untouched (gout : WriterGen) (st : RunState) :
    (writeStage gout st).completed_at = st.completed_at ∧
    (writeStage gout st).started_at = st.started_at ∧
    (writeStage gout st).topic = st.topic ∧
    (writeStage gout st).outline = st.outline ∧
    (writeStage gout st).research_text = st.research_text ∧
    (writeStage gout st).researchStatus = st.researchStatus ∧
    (writeStage gout st).outlineStatus = st.outlineStatus := by
  cases h : st.outline with
  | none => simp [writeStage, h]
  | some o =>
    cases hw : write gout o with
    | none => simp [writeStage, h, hw]
    | some w =>
      by_cases hc : w.compliant = true <;> simp [writeStage, h, hw, hc]

lemma writeStage_errors (gout : WriterGen) (st : RunState) :
    ∃ new, (writeStage gout st).errors = st.errors ++ new ∧
      ∀ e ∈ new, ∃ r, e = "Writing failed: " ++ r := by
  cases h : st.outline with
  | none =>
    refine ⟨["Writing failed: " ++ "no outline available"],
      by simp [writeStage, h], ?_⟩
    intro e he
    rw [List.mem_singleton] at he
    exact ⟨_, he⟩
  | some o =>
    cases hw : write gout o with
    | none =>
      refine ⟨["Writing failed: " ++ "generation produced no article text"],
        by simp [writeStage, h, hw], ?_⟩
      intro e he
      rw [List.mem_singleton] at he
      exact ⟨_, he⟩
    | some w =>
      by_cases hc : w.compliant = true
      · exact ⟨[], by simp [writeStage, h, hw, hc], by intro e he; simp at he⟩
      · refine ⟨["Writing failed: " ++
            ("generated text does not address outline headings: " ++
              String.intercalate ", " (missingHeadings o w.text))],
          by simp [writeStage, h, hw, hc], ?_⟩
        intro e he
        rw [List.mem_singleton] at he
        exact ⟨_, he⟩

lemma writeStage_terminal (gout : WriterGen) (st : RunState) :
    terminalStatus (writeStage gout st).writeStatus = true := by
  cases h : st.outline with
  | none => simp [writeStage, h, terminalStatus]
  | some o =>
    cases hw : write gout o with
    | none => simp [writeStage, h, hw, terminalStatus]
    | some w =>
      by_cases hc : w.compliant = true <;>
        simp [writeStage, h, hw, hc, terminalStatus]

/-- C4: for every topic, Search Gateway fetch calls the primary provider at
most once and, only after the primary times out, errors, or returns an
empty result, calls the secondary provider at most once; it never retries
the same provider, returns usedFallback true exactly when the result of the
secondary is used, accepts any non-empty text from either provider as
success, and returns a ResearchUnavailable failure exactly when both
providers fail. -/
theorem searchGateway_failover_policy (pOut sOut : ProviderOutcome) :
    ((fetchCalls pOut).count ProviderTag.primaryTag ≤ 1 ∧
      (fetchCalls pOut).count ProviderTag.secondaryTag ≤ 1) ∧
    (ProviderTag.secondaryTag ∈ fetchCalls pOut ↔ providerUsable pOut = none) ∧
    (∀ r, providerUsable pOut = some r →
      fetch pOut sOut = .success ⟨r.text, r.sources, false⟩) ∧
    (∀ r, providerUsable pOut = none → providerUsable sOut = some r →
      fetch pOut sOut = .success ⟨r.text, r.sources, true⟩) ∧
    (fetch pOut sOut = .researchUnavailable ↔
      (providerUsable pOut = none ∧ providerUsable sOut = none)) ∧
    (∀ res, providerUsable (.ok res) = some res ↔ res.text ≠ "") ∧
    (∀ t src, fetch pOut sOut = .success ⟨t, src, true⟩ →
      providerUsable pOut = none ∧ providerUsable sOut = some ⟨t, src⟩) := by
  refine ⟨?_, ?_, ?_, ?_, ?_, ?_, ?_⟩
  · cases hp : providerUsable pOut <;> simp [fetchCalls, hp] <;> decide
  · cases hp : providerUsable pOut <;> simp [fetchCalls, hp]
  · intro r hr
    simp [fetch, hr]
  · intro r hp hs
    simp [fetch, hp, hs]
  · cases hp : providerUsable pOut with
    | some r => simp [fetch, hp]
    | none =>
      cases hs : providerUsable sOut with
      | some r => simp [fetch, hp, hs]
      | none => simp [fetch, hp, hs]
  · intro res
    by_cases ht : res.text = "" <;> simp [providerUsable, ht]
  · intro t src hres
    cases hp : providerUsable pOut with
    | some r => simp [fetch, hp] at hres
    | none =>
      cases hs : providerUsable sOut with
      | some r =>
        obtain ⟨rt, rs⟩ := r
        simp only [fetch, hp, hs, FetchResult.success.injEq,
          FetchSuccess.mk.injEq] at hres
        obtain ⟨het, hes, -⟩ := hres
        subst het
        subst hes
        exact ⟨rfl, rfl⟩
      | none => simp [fetch, hp, hs] at hres

/-- Witness for C4: with the primary down and the secondary returning the
text backup, the gateway succeeds through the fallback path. -/
theorem searchGateway_failover_policy_w :
    fetch ProviderOutcome.unavailable (ProviderOutcome.ok ⟨"backup", []⟩) =
      FetchResult.success ⟨"backup", [], true⟩ := by
  have h := searchGateway_failover_policy ProviderOutcome.unavailable
    (ProviderOutcome.ok ⟨"backup", []⟩)
  exact h.2.2.2.1 ⟨"backup", []⟩ rfl (by simp [providerUsable])

/-- C2: for every topic and research input, Outline Builder build never
returns an invalid Outline; if every retry attempt is exhausted without a
valid Outline it returns the deterministic fallback Outline — exactly one
section, title equal to the topic, with a placeholder key point — together
with the failure signal, and the Outline stage then records an error tagged
Outline failed.  The topic is non-empty, as the Orchestrator guarantees by
rejecting empty topics before any stage runs (spec section 6). -/
theorem outlineBuilder_fallback_on_exhaustion (gen : Prompt → GenResponse)
    (st : RunState) (h : st.topic ≠ "") :
    validateOutline (build gen st.topic st.research_text).outline = none ∧
    ((∀ p, responseInvalid (gen p) = true) →
      (build gen st.topic st.research_text).failed = true ∧
      (build gen st.topic st.research_text).outline = fallbackOutline st.topic ∧
      (fallbackOutline st.topic).title = st.topic ∧
      (fallbackOutline st.topic).sections =
        [⟨st.topic, ["(outline unavailable)"]⟩] ∧
      (outlineStage gen st).errors = st.errors ++
        ["Outline failed: " ++
          "no valid outline produced within the retry bound; fallback substituted"]) := by
  refine ⟨build_outline_valid gen st.topic st.research_text h, ?_⟩
  intro hg
  have hfail : (build gen st.topic st.research_text).failed = true :=
    buildLoop_all_invalid gen st.topic st.research_text hg retryBound none []
  refine ⟨hfail, ?_, rfl, rfl, ?_⟩
  · exact buildLoop_failed_outline gen st.topic st.research_text retryBound none [] hfail
  · simp [outlineStage, hfail]

/-- Witness for C2: a generation service that always answers with malformed
output, on the topic Tea, yields the fallback outline and the recorded
Outline failed error. -/
theorem outlineBuilder_fallback_on_exhaustion_w :
    validateOutline
      (build (fun _ => .malformed "junk") "Tea" none).outline = none ∧
    (build (fun _ => .malformed "junk") "Tea" none).outline =
      fallbackOutline "Tea" := by
  have h := outlineBuilder_fallback_on_exhaustion (fun _ => .malformed "junk")
    { trace_id := 0, topic := "Tea", style := "", length := "", channel := ""
      started_at := 0, completed_at := none, research_text := none
      research_sources := [], outline := none, article_title := none
      article_text := none, word_count := none, errors := []
      researchStatus := .pending, outlineStatus := .pending
      writeStatus := .pending }
    (by decide)
  exact ⟨h.1, (h.2 (fun p => rfl)).2.1⟩

/-- C3: if the generation service returns malformed structured output on
the first two calls and a valid Outline on the third, the Outline Builder
returns that valid Outline with no error recorded in the run state, and
exactly two corrective-feedback prompts — each carrying the previous
malformed output and the specific validation error — were issued. -/
theorem outlineBuilder_retry_with_feedback (gen : Prompt → GenResponse)
    (st : RunState) (r1 r2 : String) (o : Outline)
    (h1 : gen ⟨st.topic, st.research_text, none⟩ = .malformed r1)
    (h2 : gen ⟨st.topic, st.research_text,
            some (.malformed r1, parseErrMsg)⟩ = .malformed r2)
    (h3 : gen ⟨st.topic, st.research_text,
            some (.malformed r2, parseErrMsg)⟩ = .parsed o)
    (hv : validateOutline o = none) :
    build gen st.topic st.research_text =
      ⟨o, false,
        [⟨st.topic, st.research_text, none⟩,
          ⟨st.topic, st.research_text, some (.malformed r1, parseErrMsg)⟩,
          ⟨st.topic, st.research_text, some (.malformed r2, parseErrMsg)⟩]⟩ ∧
    ((build gen st.topic st.research_text).promptsIssued.filter
        (fun p => p.feedback.isSome)).length = 2 ∧
    (outlineStage gen st).errors = st.errors ∧
    (outlineStage gen st).outline = some o := by
  have hb : build gen st.topic st.research_text =
      ⟨o, false,
        [⟨st.topic, st.research_text, none⟩,
          ⟨st.topic, st.research_text, some (.malformed r1, parseErrMsg)⟩,
          ⟨st.topic, st.research_text, some (.malformed r2, parseErrMsg)⟩]⟩ := by
    rw [build, retryBound]
    rw [buildLoop]
    simp only [h1]
    rw [buildLoop]
    simp only [h2]
    rw [buildLoop]
    simp only [h3, hv]
    rfl
  have hfail : (build gen st.topic st.research_text).failed = false := by
    rw [hb]
  refine ⟨hb, ?_, ?_, ?_⟩
  · rw [hb]
    rfl
  · simp [outlineStage, hfail]
  · rw [outlineStage_outline, hb]

/-- A concrete generation service: malformed on the first call, malformed
again on the feedback retry, and a valid outline on the third call. -/
def genTwiceBad : Prompt → GenResponse := fun p =>
  match p.feedback with
  | none => .malformed "bad one"
  | some (.malformed "bad one", _) => .malformed "bad two"
  | _ => .parsed ⟨"Tea guide", [⟨"Basics", ["start here"]⟩]⟩

lemma fetch_both_fail {pOut sOut : ProviderOutcome}
    (hp : providerUsable pOut = none) (hs : providerUsable sOut = none) :
    fetch pOut sOut = .researchUnavailable := by
  simp [fetch, hp, hs]

lemma trimmed_ne_of_trimmed_ne {s : String} (h : trimmed s ≠ "") : s ≠ "" :=
  fun he => h (by rw [he]; rfl)

/-- Witness for C3: a concrete generation service that is malformed twice
and valid on the third, feedback-guided, call. -/
theorem outlineBuilder_retry_with_feedback_w :
    ((build genTwiceBad "Tea" none).promptsIssued.filter
        (fun p => p.feedback.isSome)).length = 2 ∧
    (build genTwiceBad "Tea" none).outline = ⟨"Tea guide", [⟨"Basics", ["start here"]⟩]⟩ := by
  have h := outlineBuilder_retry_with_feedback genTwiceBad
    { trace_id := 0, topic := "Tea", style := "", length := "", channel := ""
      started_at := 0, completed_at := none, research_text := none
      research_sources := [], outline := none, article_title := none
      article_text := none, word_count := none, errors := []
      researchStatus := .pending, outlineStatus := .pending
      writeStatus := .pending }
    "bad one" "bad two" ⟨"Tea guide", [⟨"Basics", ["start here"]⟩]⟩
    rfl rfl rfl rfl
  exact ⟨h.2.1, by rw [h.1]⟩

/-- C5: for every outline and every Writer generation that succeeds, if one
or more outline headings have no recognizable case-insensitive reference in
the generated text, the Writer returns compliant false, the generated text
is still returned and stored in the run state (never discarded), and an
error naming the missing headings is recorded. -/
theorem writer_keeps_text_on_missing_headings
    (title text : String) (o : Outline) (st : RunState)
    (ht : text ≠ "") (hm : missingHeadings o text ≠ [])
    (ho : st.outline = some o) :
    (∃ w, write (.ok title text) o = some w ∧
      w.compliant = false ∧ w.text = text) ∧
    (writeStage (.ok title text) st).article_text = some text ∧
    (writeStage (.ok title text) st).writeStatus = .degraded ∧
    (writeStage (.ok title text) st).errors = st.errors ++
      ["Writing failed: " ++
        ("generated text does not address outline headings: " ++
          String.intercalate ", " (missingHeadings o text))] := by
  have hie : (missingHeadings o text).isEmpty = false := by
    cases hml : missingHeadings o text with
    | nil => exact absurd hml hm
    | cons a l => rfl
  have hw : write (.ok title text) o =
      some { title := title, text := text, wordCount := countWords text
             compliant := false } := by
    simp [write, ht, hie]
  refine ⟨⟨_, hw, rfl, rfl⟩, ?_, ?_, ?_⟩ <;>
    simp [writeStage, ho, hw]

/-- A concrete outline with two sections, used to exercise the compliance
check on a text that addresses only the first heading. -/
def outlineTwo : Outline :=
  ⟨"Tea", [⟨"Intro", ["kinds of tea"]⟩, ⟨"Ending", ["wrap up"]⟩]⟩

/-- A concrete run state holding outlineTwo, used by the Writer witness. -/
def stOutlineTwo : RunState :=
  { trace_id := 0, topic := "Tea", style := "", length := "", channel := ""
    started_at := 0, completed_at := none, research_text := none
    research_sources := [], outline := some outlineTwo, article_title := none
    article_text := none, word_count := none, errors := []
    researchStatus := .done, outlineStatus := .done, writeStatus := .pending }

/-- Witness for C5: a generated text that mentions the Intro heading only
in different case and omits the Ending heading is kept, with the stage
degraded. -/
theorem writer_keeps_text_on_missing_headings_w :
    (writeStage (.ok "Tea" "we begin with the INTRO and stop")
        stOutlineTwo).article_text =
      some "we begin with the INTRO and stop" ∧
    (writeStage (.ok "Tea" "we begin with the INTRO and stop")
        stOutlineTwo).writeStatus = .degraded := by
  have h := writer_keeps_text_on_missing_headings "Tea"
    "we begin with the INTRO and stop" outlineTwo stOutlineTwo
    (by decide) (by decide) rfl
  exact ⟨h.2.1, h.2.2.1⟩

/-- C1: for every run on a topic that survives trimming, the Orchestrator
never aborts the pipeline because an earlier stage ended degraded or
failed: every environment yields a completed RunState with all three
stages at a terminal status; in particular, when both search providers
fail, research_text stays absent, an error tagged Research failed is
present, and the Outline stage still ran and stored an outline. -/
theorem orchestrator_never_aborts_on_stage_failure (env : Env) (req : Request)
    (h : trimmed req.topic ≠ "") :
    ∃ final, run env req = .completed final ∧
      terminalStatus final.researchStatus = true ∧
      (final.outlineStatus = .done ∨ final.outlineStatus = .degraded) ∧
      terminalStatus final.writeStatus = true ∧
      final.outline.isSome = true ∧
      ((providerUsable env.primaryOut = none ∧
          providerUsable env.secondaryOut = none) →
        final.research_text = none ∧
        ∃ r, ("Research failed: " ++ r) ∈ final.errors) := by
  set s0 := initState env req with hs0
  set s1 := researchStage env.primaryOut env.secondaryOut s0 with hs1
  set s2 := outlineStage env.gen s1 with hs2
  set s3 := writeStage env.writerOut s2 with hs3
  obtain ⟨r1, r2, r3, r4, r5, r6, r7⟩ :=
    researchStage_untouched env.primaryOut env.secondaryOut s0
  obtain ⟨o1, o2, o3, o4, o5, o6, o7⟩ := outlineStage_untouched env.gen s1
  obtain ⟨w1, w2, w3, w4, w5, w6, w7⟩ := writeStage_untouched env.writerOut s2
  refine ⟨{ s3 with completed_at := some (env.startTime + env.elapsed) },
    ?_, ?_, ?_, ?_, ?_, ?_⟩
  · rw [run, if_neg h]
  · show terminalStatus s3.researchStatus = true
    rw [w6, o5]
    exact researchStage_terminal env.primaryOut env.secondaryOut s0
  · show s3.outlineStatus = .done ∨ s3.outlineStatus = .degraded
    rw [w7]
    exact outlineStage_status env.gen s1
  · show terminalStatus s3.writeStatus = true
    exact writeStage_terminal env.writerOut s2
  · show s3.outline.isSome = true
    rw [w4, outlineStage_outline]
    rfl
  · intro ⟨hp, hs⟩
    have hfetch := fetch_both_fail hp hs
    have hrt : s1.research_text = none := by
      rw [hs1, researchStage, hfetch]
      rfl
    have herr : ("Research failed: " ++ "all search providers unavailable")
        ∈ s1.errors := by
      rw [hs1, researchStage, hfetch]
      simp
    constructor
    · show s3.research_text = none
      rw [w5, o4, hrt]
    · refine ⟨"all search providers unavailable", ?_⟩
      show _ ∈ s3.errors
      obtain ⟨n2, hn2, -⟩ := outlineStage_errors env.gen s1
      obtain ⟨n3, hn3, -⟩ := writeStage_errors env.writerOut s2
      rw [hn3, hn2]
      exact List.mem_append_left _ (List.mem_append_left _ herr)

/-- A concrete request with a valid topic, for the orchestrator
witnesses. -/
def reqW : Request :=
  { topic := "Tea", content_type := "blog", style := "casual"
    length := "short", channel := "whatsapp" }

/-- A concrete environment in which both search providers fail, outline
generation is always malformed, and writer generation fails. -/
def envW : Env :=
  { primaryOut := .unavailable, secondaryOut := .unavailable
    gen := fun _ => .malformed "x", writerOut := .unavailable
    traceId := 7, startTime := 5, elapsed := 2 }

/-- Witness for C1: in the all-failures environment the run still
completes, with the outline stage reached. -/
theorem orchestrator_never_aborts_on_stage_failure_w :
    ∃ final, run envW reqW = RunOutcome.completed final ∧
      final.outline.isSome = true ∧ final.research_text = none := by
  obtain ⟨f, hrun, -, -, -, ho, himp⟩ :=
    orchestrator_never_aborts_on_stage_failure envW reqW (by decide)
  obtain ⟨hrt, -⟩ := himp ⟨rfl, rfl⟩
  exact ⟨f, hrun, ho, hrt⟩

lemma runStates_eq (env : Env) (req : Request) :
    runStates env req =
      [initState env req,
        researchStage env.primaryOut env.secondaryOut (initState env req),
        outlineStage env.gen
          (researchStage env.primaryOut env.secondaryOut (initState env req)),
        writeStage env.writerOut
          (outlineStage env.gen
            (researchStage env.primaryOut env.secondaryOut (initState env req))),
        { writeStage env.writerOut
            (outlineStage env.gen
              (researchStage env.primaryOut env.secondaryOut
                (initState env req))) with
            completed_at := some (env.startTime + env.elapsed) }] := rfl

/-- C6: at every point in a run, any Outline stored in RunState is fully
valid under the validation of spec section 4.2 step 3; an incompletely valid
Outline is never stored.  The run is on a topic that survives trimming, as
every accepted run is. -/
theorem stored_outline_always_valid (env : Env) (req : Request)
    (h : trimmed req.topic ≠ "") :
    ∀ st ∈ runStates env req, ∀ o, st.outline = some o →
      validateOutline o = none := by
  have htop : req.topic ≠ "" := trimmed_ne_of_trimmed_ne h
  set s0 := initState env req with hs0
  set s1 := researchStage env.primaryOut env.secondaryOut s0 with hs1
  set s2 := outlineStage env.gen s1 with hs2
  set s3 := writeStage env.writerOut s2 with hs3
  obtain ⟨r1, r2, r3, r4, r5, r6, r7⟩ :=
    researchStage_untouched env.primaryOut env.secondaryOut s0
  obtain ⟨w1, w2, w3, w4, w5, w6, w7⟩ := writeStage_untouched env.writerOut s2
  rw [← hs1] at r3 r4
  rw [← hs3] at w4
  have hs0out : s0.outline = none := rfl
  have hs1top : s1.topic = req.topic := by rw [r3, hs0]; rfl
  have hvalid : validateOutline (build env.gen s1.topic s1.research_text).outline = none := by
    refine build_outline_valid env.gen s1.topic s1.research_text ?_
    rw [hs1top]
    exact htop
  intro st hst
  rw [runStates_eq] at hst
  simp only [← hs0, ← hs1, ← hs2, ← hs3, List.mem_cons, List.not_mem_nil,
    or_false] at hst
  rcases hst with rfl | rfl | rfl | rfl | rfl
  · intro o ho
    rw [hs0out] at ho
    cases ho
  · intro o ho
    rw [r4, hs0out] at ho
    cases ho
  · intro o ho
    rw [hs2, outlineStage_outline, Option.some.injEq] at ho
    rw [← ho]
    exact hvalid
  · intro o ho
    rw [w4, hs2, outlineStage_outline, Option.some.injEq] at ho
    rw [← ho]
    exact hvalid
  · intro o ho
    have ho2 : s3.outline = some o := ho
    rw [w4, hs2, outlineStage_outline, Option.some.injEq] at ho2
    rw [← ho2]
    exact hvalid

/-- Witness for C6: the state of the concrete all-failures run that
follows the Outline stage stores the fallback outline, and the claim
theorem applied to it shows that outline passes validation. -/
theorem stored_outline_always_valid_w :
    validateOutline (fallbackOutline "Tea") = none := by
  refine stored_outline_always_valid envW reqW (by decide)
    (outlineStage envW.gen
      (researchStage envW.primaryOut envW.secondaryOut (initState envW reqW)))
    ?_ (fallbackOutline "Tea") (by decide)
  rw [runStates_eq]
  exact List.mem_cons_of_mem _ (List.mem_cons_of_mem _ (List.mem_cons_self _ _))

/-- C7: for every run on a topic that survives trimming, completed_at is
set on exactly one of the successive run states, only after the Write stage
reached a terminal status, and the returned RunState has
completed_at at least started_at. -/
theorem completed_at_stamped_once (env : Env) (req : Request)
    (h : trimmed req.topic ≠ "") :
    ((runStates env req).filter (fun s => s.completed_at.isSome)).length = 1 ∧
    (∀ st ∈ runStates env req, st.completed_at.isSome = true →
      terminalStatus st.writeStatus = true) ∧
    ∃ final, run env req = .completed final ∧
      final.completed_at = some (env.startTime + env.elapsed) ∧
      final.started_at = env.startTime ∧
      env.startTime ≤ env.startTime + env.elapsed := by
  set s0 := initState env req with hs0
  set s1 := researchStage env.primaryOut env.secondaryOut s0 with hs1
  set s2 := outlineStage env.gen s1 with hs2
  set s3 := writeStage env.writerOut s2 with hs3
  obtain ⟨r1, r2, r3, r4, r5, r6, r7⟩ :=
    researchStage_untouched env.primaryOut env.secondaryOut s0
  obtain ⟨o1, o2, o3, o4, o5, o6, o7⟩ := outlineStage_untouched env.gen s1
  obtain ⟨w1, w2, w3, w4, w5, w6, w7⟩ := writeStage_untouched env.writerOut s2
  rw [← hs1] at r1 r2
  rw [← hs2] at o1 o2
  rw [← hs3] at w1 w2
  have hc0 : s0.completed_at = none := rfl
  have hc1 : s1.completed_at = none := by rw [r1, hc0]
  have hc2 : s2.completed_at = none := by rw [o1, hc1]
  have hc3 : s3.completed_at = none := by rw [w1, hc2]
  refine ⟨?_, ?_, ?_⟩
  · rw [runStates_eq]
    simp only [← hs0, ← hs1, ← hs2, ← hs3]
    simp [List.filter, hc1, hc2, hc3, hc0]
  · intro st hst
    rw [runStates_eq] at hst
    simp only [← hs0, ← hs1, ← hs2, ← hs3, List.mem_cons, List.not_mem_nil,
      or_false] at hst
    rcases hst with rfl | rfl | rfl | rfl | rfl
    · rw [hc0]; intro hco; cases hco
    · rw [hc1]; intro hco; cases hco
    · rw [hc2]; intro hco; cases hco
    · rw [hc3]; intro hco; cases hco
    · intro _
      show terminalStatus s3.writeStatus = true
      rw [hs3]
      exact writeStage_terminal env.writerOut s2
  · refine ⟨{ s3 with completed_at := some (env.startTime + env.elapsed) },
      ?_, rfl, ?_, Nat.le_add_right _ _⟩
    · rw [run, if_neg h]
    · show s3.started_at = env.startTime
      rw [w2, o2, r2]
      rfl

/-- Witness for C7: the concrete all-failures run stamps completed_at
exactly once and ends with completed_at after started_at. -/
theorem completed_at_stamped_once_w :
    ((runStates envW reqW).filter (fun s => s.completed_at.isSome)).length = 1 ∧
    ∃ final, run envW reqW = RunOutcome.completed final ∧
      final.completed_at = some (envW.startTime + envW.elapsed) := by
  obtain ⟨hlen, -, f, hrun, hco, -⟩ :=
    completed_at_stamped_once envW reqW (by decide)
  exact ⟨hlen, f, hrun, hco⟩

/-- C8: every entry of RunState.errors begins with the name of the stage
that produced it — the Research stage only appends entries tagged Research
failed, the Outline stage only Outline failed, the Write stage only Writing
failed — and the errors sequence is append-only: each stage only appends to
the entries already present, so along the whole run trace every entry
carries the tag of its producing stage. -/
theorem errors_tagged_and_append_only (env : Env) (req : Request) :
    (∀ pOut sOut st, ∃ new,
      (researchStage pOut sOut st).errors = st.errors ++ new ∧
      ∀ e ∈ new, ∃ r, e = "Research failed: " ++ r) ∧
    (∀ gen st, ∃ new, (outlineStage gen st).errors = st.errors ++ new ∧
      ∀ e ∈ new, ∃ r, e = "Outline failed: " ++ r) ∧
    (∀ gout st, ∃ new, (writeStage gout st).errors = st.errors ++ new ∧
      ∀ e ∈ new, ∃ r, e = "Writing failed: " ++ r) ∧
    (∀ st ∈ runStates env req, ∀ e ∈ st.errors, stageTagged e) := by
  refine ⟨?_, ?_, ?_, ?_⟩
  · intro pOut sOut st
    exact researchStage_errors pOut sOut st
  · intro gen st
    exact outlineStage_errors gen st
  · intro gout st
    exact writeStage_errors gout st
  set s0 := initState env req with hs0
  set s1 := researchStage env.primaryOut env.secondaryOut s0 with hs1
  set s2 := outlineStage env.gen s1 with hs2
  set s3 := writeStage env.writerOut s2 with hs3
  obtain ⟨n1, hn1, ht1⟩ := researchStage_errors env.primaryOut env.secondaryOut s0
  obtain ⟨n2, hn2, ht2⟩ := outlineStage_errors env.gen s1
  obtain ⟨n3, hn3, ht3⟩ := writeStage_errors env.writerOut s2
  rw [← hs1] at hn1
  rw [← hs2] at hn2
  rw [← hs3] at hn3
  have H0 : ∀ e ∈ s0.errors, stageTagged e := by
    intro e he
    have he2 : e ∈ ([] : List String) := he
    cases he2
  have H1 : ∀ e ∈ s1.errors, stageTagged e := by
    intro e he
    rw [hn1] at he
    rcases List.mem_append.mp he with hl | hr
    · exact H0 e hl
    · exact Or.inl (ht1 e hr)
  have H2 : ∀ e ∈ s2.errors, stageTagged e := by
    intro e he
    rw [hn2] at he
    rcases List.mem_append.mp he with hl | hr
    · exact H1 e hl
    · exact Or.inr (Or.inl (ht2 e hr))
  have H3 : ∀ e ∈ s3.errors, stageTagged e := by
    intro e he
    rw [hn3] at he
    rcases List.mem_append.mp he with hl | hr
    · exact H2 e hl
    · exact Or.inr (Or.inr (ht3 e hr))
  intro st hst
  rw [runStates_eq] at hst
  simp only [← hs0, ← hs1, ← hs2, ← hs3, List.mem_cons, List.not_mem_nil,
    or_false] at hst
  rcases hst with rfl | rfl | rfl | rfl | rfl
  · exact H0
  · exact H1
  · exact H2
  · exact H3
  · intro e he
    exact H3 e he

/-- Witness for C8: the error the concrete all-failures run records in its
post-Research state carries a stage tag, by the claim theorem applied to
that state. -/
theorem errors_tagged_and_append_only_w :
    stageTagged ("Research failed: " ++ "all search providers unavailable") := by
  refine (errors_tagged_and_append_only envW reqW).2.2.2
    (researchStage envW.primaryOut envW.secondaryOut (initState envW reqW))
    ?_ _ ?_
  · rw [runStates_eq]
    exact List.mem_cons_of_mem _ (List.mem_cons_self _ _)
  · decide

/-- C9: every request whose topic is empty after trimming is rejected
before any stage executes — the run produces no RunState, and the dashboard
submit handler dispatches no pipeline request either. -/
theorem empty_topic_rejected_before_stages (env : Env) (req : Request)
    (h : trimmed req.topic = "") :
    run env req = .rejected "topic must be non-empty after trimming" ∧
    (∀ styleField lengthField channelField,
      Frontend.formSubmitRequest req.topic styleField lengthField
        channelField = none) := by
  constructor
  · rw [run, if_pos h]
  · intro styleField lengthField channelField
    simp [Frontend.formSubmitRequest, h]

/-- Witness for C9: a topic of blanks is rejected and not dispatched. -/
theorem empty_topic_rejected_before_stages_w :
    run envW { reqW with topic := "   " } =
      RunOutcome.rejected "topic must be non-empty after trimming" ∧
    Frontend.formSubmitRequest "   " "casual" "short" "whatsapp" = none := by
  have hres := empty_topic_rejected_before_stages envW
    { reqW with topic := "   " } (by decide)
  exact ⟨hres.1, hres.2 "casual" "short" "whatsapp"⟩

lemma escapeHtmlChar_no_angle (c : Char) :
    ('<' ∈ Frontend.escapeHtmlChar c → False) ∧
    ('>' ∈ Frontend.escapeHtmlChar c → False) := by
  unfold Frontend.escapeHtmlChar
  split_ifs with h1 h2 h3
  · refine ⟨fun hm => ?_, fun hm => ?_⟩ <;> simp at hm
  · refine ⟨fun hm => ?_, fun hm => ?_⟩ <;> simp at hm
  · refine ⟨fun hm => ?_, fun hm => ?_⟩ <;> simp at hm
  · refine ⟨fun hm => ?_, fun hm => ?_⟩ <;> rw [List.mem_singleton] at hm
    · exact h2 hm.symm
    · exact h3 hm.symm

lemma escapeChars_no_angle (l : List Char) :
    ('<' ∈ Frontend.escapeChars l → False) ∧
    ('>' ∈ Frontend.escapeChars l → False) := by
  induction l with
  | nil =>
    refine ⟨fun hm => ?_, fun hm => ?_⟩ <;> cases hm
  | cons c cs ih =>
    rw [Frontend.escapeChars]
    refine ⟨fun hm => ?_, fun hm => ?_⟩ <;>
      rcases List.mem_append.mp hm with hl | hr
    · exact (escapeHtmlChar_no_angle c).1 hl
    · exact ih.1 hr
    · exact (escapeHtmlChar_no_angle c).2 hl
    · exact ih.2 hr

/-- C10: for every input string the dashboard escapeHtml returns a string
containing no raw angle bracket, and truncate applies escapeHtml before
bounding the length — its result is the empty string, the escaped string,
or a cut of the escaped string plus an ellipsis — so the research excerpt,
article excerpt and error text the dashboard interpolates into innerHTML
carry no raw markup characters. -/
theorem dashboard_escapes_interpolated_html (text : String) (maxLen : Nat) :
    Frontend.noRawAngle (Frontend.escapeHtml text) ∧
    Frontend.noRawAngle (Frontend.truncate text maxLen) ∧
    (Frontend.truncate text maxLen = "" ∨
      Frontend.truncate text maxLen = Frontend.escapeHtml text ∨
      Frontend.truncate text maxLen =
        String.mk ((Frontend.escapeHtml text).data.take maxLen ++
          ['.', '.', '.'])) := by
  refine ⟨⟨(escapeChars_no_angle text.data).1, (escapeChars_no_angle text.data).2⟩, ?_, ?_⟩
  · rw [Frontend.truncate]
    split_ifs with h1 h2
    · constructor
      · exact fun hm => nomatch hm
      · exact fun hm => nomatch hm
    · refine ⟨fun hm => ?_, fun hm => ?_⟩
      · rcases List.mem_append.mp hm with hl | hr
        · exact (escapeChars_no_angle text.data).1 (List.take_subset _ _ hl)
        · exact absurd hr (by decide)
      · rcases List.mem_append.mp hm with hl | hr
        · exact (escapeChars_no_angle text.data).2 (List.take_subset _ _ hl)
        · exact absurd hr (by decide)
    · exact ⟨(escapeChars_no_angle text.data).1, (escapeChars_no_angle text.data).2⟩
  · rw [Frontend.truncate]
    split_ifs with h1 h2
    · exact Or.inl rfl
    · exact Or.inr (Or.inr rfl)
    · exact Or.inr (Or.inl rfl)

/-- Witness for C10: a concrete markup-bearing input comes out of both
helpers with every angle bracket escaped. -/
theorem dashboard_escapes_interpolated_html_w :
    Frontend.noRawAngle (Frontend.escapeHtml "<b>hi</b>") ∧
    Frontend.noRawAngle (Frontend.truncate "<b>hi</b>" 5) := by
  have h := dashboard_escapes_interpolated_html "<b>hi</b>" 5
  exact ⟨h.1, h.2.1⟩

end TeaStall
